import Mathlib

/-!
Shallow embedding of `plugins/modules/server.py` from the
glesys/ansible-collection-cloud repository, together with theorems that
settle the frozen claims about its specification.

Modelling conventions:
- Python dictionary values that can be `None`, an `int` or a `str`
  (the module parameters and the per-server JSON properties) are embedded
  as the inductive type `Value`; Python truthiness of such a value is
  `Value.truthy`, and Python `!=` between two such values is Lean `!=` on
  `Value` (values of different shapes compare unequal, as in Python).
- The remote provider is external to the repository.  A non-drifting
  provider (the hypothesis of the idempotence claim) is modelled by
  `applyEdit`: the state visible through `server/details` changes only by
  the field-sets this module itself posts to `server/edit`.  The stream of
  answers the provider gives to successive `server/status` polls is a
  finite list `statusFeed`; a wait loop that exhausts the list models a
  poll loop that is still running (the source loops are unbounded).
- `time.sleep(1)` calls are counted, not performed.
- `module.exit_json` / raised exceptions terminate the Ansible module; the
  embedding of `GlesysRunner.run` therefore returns a `RunResult` whose
  `outcome` is either `exited changed` (a normal `exit_json`) or
  `failed e` (an uncaught Python exception).
-/

namespace Glesys

/-- A Python value as it occurs in the module parameter dict and in the
per-server JSON dicts: `None`, an int, or a str. -/
inductive Value where
  | none
  | int (n : Int)
  | str (s : String)
deriving DecidableEq

/-- Python truthiness of a `Value`: `None`, `0` and `""` are falsy. -/
def Value.truthy : Value → Bool
  | .none => false
  | .int n => n != 0
  | .str s => s != ""

/-- One entry of the `iplist` property: an IP version tag and an address. -/
structure IpEntry where
  version : Nat
  ipaddress : String
deriving DecidableEq

/-- The provider view of a server, as returned by `server/details`
(`GlesysApi.get_server_details`): the fields the module reads. -/
structure ServerDetails where
  serverid : String
  hostname : String
  cpucores : Int
  disksize : Int
  memorysize : Int
  bandwidth : Int
  /-- `serverdetails["supportedfeatures"]["editbandwidth"]`, "yes" or "no". -/
  editbandwidth : String
  state : String
  iplist : List IpEntry
deriving DecidableEq

/-- `AnsibleGlesysServer.to_json()[k]`: lookup in the properties dict that
mirrors the server details. -/
def ServerDetails.to_json (s : ServerDetails) : String → Value := fun k =>
  if k = "serverid" then .str s.serverid
  else if k = "hostname" then .str s.hostname
  else if k = "cpucores" then .int s.cpucores
  else if k = "disksize" then .int s.disksize
  else if k = "memorysize" then .int s.memorysize
  else if k = "bandwidth" then .int s.bandwidth
  else if k = "editbandwidth" then .str s.editbandwidth
  else if k = "state" then .str s.state
  else .none

/-- The Ansible module parameters (`module.params`), plus
`module.check_mode` from the framework.  Integer parameters default to
`None` when omitted, so they are `Value`s; `password` has type str with
default `""`. -/
structure ModuleParams where
  serverid : Value
  hostname : Value
  cpus : Value
  memory : Value
  disk : Value
  bandwidth : Value
  password : String
  ssh_pub_key : Value
  datacenter : Value
  template : Value
  platform : Value
  state : String
  users : Value
  description : Value
  wait : Bool
  checkMode : Bool
deriving DecidableEq

/-- The character set of `generate_temp_password`:
`"ABCDEFGHJKLMNPQRSTUVWXYZ23456789"`. -/
def glesysChars : List Char := "ABCDEFGHJKLMNPQRSTUVWXYZ23456789".toList

/-- `generate_temp_password(length)`.  `os.urandom(length)` is modelled by
an entropy function giving the byte at each index; the source indexes
`chars[c % len(chars)]`.  Raises `ValueError` when `length < 8` (only int
inputs are modelled, so the `isinstance` half of the guard is vacuous). -/
def generate_temp_password (length : Int) (entropy : Nat → Nat) :
    Except String String :=
  if length < 8 then .error "temp password must have positive length"
  else .ok ⟨(List.range length.toNat).map fun i =>
    glesysChars.get ⟨entropy i % glesysChars.length, Nat.mod_lt _ (by decide)⟩⟩

/-- The JSON body posted to `server/create` by `GlesysApi.create_server`
(minus transport). -/
structure CreateParams where
  hostname : Value
  platform : Value
  datacenter : Value
  templatename : Value
  disksize : Value
  memorysize : Value
  cpucores : Value
  bandwidth : Value
  rootpassword : String
  description : Value
  users : Value
  ssh_pub_key : Value
deriving DecidableEq

/-- `GlesysApi.create_server`: when the caller password has length `< 1` a
temporary password of length 64 is generated; the resulting params dict is
posted to `server/create`.  A raised `ValueError` propagates as `.error`. -/
def GlesysApi.create_server (hostname datacenter platform template cpus memory disk : Value)
    (password : String) (bandwidth description users ssh_pub_key : Value)
    (entropy : Nat → Nat) : Except String CreateParams :=
  match (if password.length < 1 then generate_temp_password 64 entropy
         else .ok password) with
  | .error e => .error e
  | .ok pw => .ok
      { hostname := hostname
        platform := platform
        datacenter := datacenter
        templatename := template
        disksize := disk
        memorysize := memory
        cpucores := cpus
        bandwidth := bandwidth
        rootpassword := pw
        description := description
        users := users
        ssh_pub_key := ssh_pub_key }

/-- `GlesysApi.update_server(server, params)`: drops falsy values, then
values equal to the matching entry of `server.to_json()`; if nothing is
left it returns `(False, None)` without any remote call, otherwise it
posts the remaining field-set (plus the server id) to `server/edit` and
returns `(True, response)`.  The returned `Option` is the posted
field-set (the id is passed separately, as in the spec `update(id, ...)`). -/
def GlesysApi.update_server (server : ServerDetails)
    (params : List (String × Value)) : Bool × Option (List (String × Value)) :=
  let params1 := params.filter fun kv => kv.2.truthy
  let params2 := params1.filter fun kv => kv.2 != server.to_json kv.1
  if params2.length = 0 then (false, none)
  else (true, some params2)

/-- The params dict built by `GlesysRunner.update_server` for the edit
call, in source order. -/
def GlesysRunner.updateFields (p : ModuleParams) : List (String × Value) :=
  [("cpucores", p.cpus), ("disksize", p.disk), ("memorysize", p.memory),
   ("bandwidth", p.bandwidth), ("hostname", p.hostname)]

/-- The condition of `GlesysRunner.update_server` deciding whether an edit
is attempted: some compared detail differs (Python `!=`) from the module
parameter, bandwidth only counting when `editbandwidth == "yes"`. -/
def GlesysRunner.updateTrigger (p : ModuleParams) (sd : ServerDetails) : Bool :=
  (Value.int sd.cpucores != p.cpus) ||
  (Value.int sd.disksize != p.disk) ||
  (Value.int sd.memorysize != p.memory) ||
  (Value.str sd.hostname != p.hostname) ||
  (sd.editbandwidth == "yes" && (Value.int sd.bandwidth != p.bandwidth))

/-- Provider model: applying one edited field to the provider state.  Only
the five editable keys are meaningful; anything else leaves the state
unchanged. -/
def applyField (sd : ServerDetails) : String × Value → ServerDetails
  | ("cpucores", .int n) => { sd with cpucores := n }
  | ("disksize", .int n) => { sd with disksize := n }
  | ("memorysize", .int n) => { sd with memorysize := n }
  | ("bandwidth", .int n) => { sd with bandwidth := n }
  | ("hostname", .str h) => { sd with hostname := h }
  | _ => sd

/-- Provider model: a non-drifting provider applies exactly the submitted
field-set to the server state. -/
def applyEdit (sd : ServerDetails) (fs : List (String × Value)) : ServerDetails :=
  fs.foldl applyField sd

/-- `GlesysRunner.update_server(server, changed)`, its pure core: returns
the resulting `changed` flag, the field-set posted to `server/edit` (if
any), and the server state afterwards against a non-drifting provider
(the source fetches fresh details and, on an edit, rebuilds the server
from the edit response and refreshes it; without drift both equal
`applyEdit`).  Note the source sets `changed = True` unconditionally in
the triggered branch, even when `GlesysApi.update_server` filtered every
field out and returned `(False, None)`.  The `if wait:` lock-wait inside
the source function is modelled at the `run` level, where the status feed
lives. -/
def GlesysRunner.update_server (p : ModuleParams) (sd : ServerDetails)
    (changed : Bool) : Bool × Option (List (String × Value)) × ServerDetails :=
  if GlesysRunner.updateTrigger p sd then
    match (GlesysApi.update_server sd (GlesysRunner.updateFields p)).2 with
    | some fs => (true, some fs, applyEdit sd fs)
    | none => (true, none, sd)
  else (changed, none, sd)

/-- The `ipaddress` loop of `GlesysRunner.run` (lines 426-432): walk the
iplist with the accumulator last written; a version-4 entry is taken and
the loop breaks, a version-6 entry overwrites the accumulator and the
loop continues. -/
def ipLoop : List IpEntry → String → String
  | [], acc => acc
  | i :: rest, acc =>
    if i.version = 4 then i.ipaddress
    else if i.version = 6 then ipLoop rest i.ipaddress
    else ipLoop rest acc

/-- The derived display `ipaddress` property: the loop started from `""`. -/
def compute_ipaddress (l : List IpEntry) : String := ipLoop l ""

/-- `GlesysRunner.wait_for_server_state(serverid, target)` against a
scripted feed of `server/status` answers.  One poll is always issued; the
loop breaks immediately when the target is `"present"` or when the polled
state equals the target, and otherwise sleeps 1 and re-polls.  Returns
the number of polls issued and the unconsumed feed, or `none` when the
script runs out (the loop would still be polling). -/
def wait_for_server_state (feed : List String) (target : String) :
    Option (Nat × List String) :=
  match feed with
  | [] => none
  | s :: rest =>
    if target = "present" then some (1, rest)
    else if target = s then some (1, rest)
    else match wait_for_server_state rest target with
      | none => none
      | some (n, r) => some (n + 1, r)

/-- `GlesysRunner.wait_for_server_lock(serverid)` against a scripted feed:
poll once; while the answer is `"locked"`, sleep 1 and re-poll.  Returns
(polls, sleeps, final observed state, unconsumed feed), or `none` when
the script runs out. -/
def wait_for_server_lock (feed : List String) :
    Option (Nat × Nat × String × List String) :=
  match feed with
  | [] => none
  | s :: rest =>
    if s = "locked" then
      match wait_for_server_lock rest with
      | none => none
      | some (polls, sleeps, fin, r) => some (polls + 1, sleeps + 1, fin, r)
    else some (1, 0, s, rest)

/-- The ways the embedded `GlesysRunner.run` can end: a normal
`module.exit_json(changed=...)`, or an uncaught Python exception. -/
inductive RunError where
  /-- A method call on `None`: `server` was `None` where the source calls
  `server.serverid()` or `server.update()`. -/
  | attributeErrorNoneServer
  /-- `exit_json(changed=changed, ...)` reached with the local `changed`
  never assigned (states other than "absent"/"present"). -/
  | unboundLocalChanged
  /-- Model artifact: a wait loop consumed the whole scripted status feed,
  i.e. the unbounded source loop would still be polling. -/
  | pollScriptExhausted
  /-- A `ValueError` raised by `generate_temp_password` propagated. -/
  | valueError
deriving DecidableEq

/-- Termination status of one embedded invocation of `GlesysRunner.run`. -/
inductive Outcome where
  | exited (changed : Bool)
  | failed (e : RunError)
deriving DecidableEq

/-- The observable result and effect trace of one embedded invocation of
`GlesysRunner.run`. -/
structure RunResult where
  outcome : Outcome
  /-- The `msg` argument of `exit_json`, when one was passed. -/
  msg : Option String := none
  /-- The server reported by `exit_json` (after the final refresh), when
  one was reported. -/
  serverFinal : Option ServerDetails := none
  /-- The display address written into the server properties, when the
  address loop ran. -/
  ipaddress : Option String := none
  /-- The params posted to `server/create`, when a create was issued. -/
  createSubmitted : Option CreateParams := none
  /-- The field-set posted to `server/edit`, when an edit was issued. -/
  editSubmitted : Option (List (String × Value)) := none
  /-- Whether `server/destroy` was posted. -/
  destroyCalled : Bool := false
  /-- Count of the fixed `time.sleep(1)` settle calls issued outside the
  wait loops (the one after a create). -/
  settleSleeps : Nat := 0
deriving DecidableEq

/-- The external provider, as one invocation sees it: the result of the
initial `find` lookup, the server returned by `server/create`, and the
scripted answers to successive `server/status` polls. -/
structure Provider where
  found : Option ServerDetails
  createReply : ServerDetails
  statusFeed : List String
deriving DecidableEq

/-- Lines 420-443 of the source, as executed on the "present" path: wait
out any residual lock, derive the display `ipaddress`, optionally
convergence-wait for the (rebooted-remapped) target state, refresh the
server (a no-op against a non-drifting provider) and `exit_json`.
`base` carries the effect trace accumulated so far. -/
def GlesysRunner.presentTail (p : ModuleParams) (cur : ServerDetails)
    (changed : Bool) (feed : List String) (base : RunResult) : RunResult :=
  match wait_for_server_lock feed with
  | none => { base with outcome := .failed .pollScriptExhausted }
  | some (_, _, _, feed2) =>
    let ip := compute_ipaddress cur.iplist
    if p.wait then
      let target := if p.state = "rebooted" then "running" else p.state
      match wait_for_server_state feed2 target with
      | none =>
        { base with
          outcome := .failed .pollScriptExhausted
          ipaddress := some ip }
      | some _ =>
        { base with
          outcome := .exited changed
          ipaddress := some ip
          serverFinal := some cur }
    else
      { base with
        outcome := .exited changed
        ipaddress := some ip
        serverFinal := some cur }

/-- `GlesysRunner.run`, one invocation against a provider.  Follows the
source: absent-handling first, then the create-or-update block guarded by
`state == "present"`, then the shared wait/refresh/exit tail.  For states
other than "absent" and "present" the shared tail dereferences a missing
server (AttributeError) or reads the never-assigned local `changed`
(UnboundLocalError). -/
def GlesysRunner.run (p : ModuleParams) (prov : Provider)
    (entropy : Nat → Nat) : RunResult :=
  let server := prov.found
  let feed := prov.statusFeed
  if p.state = "absent" then
    match server with
    | none => { outcome := .exited false, msg := some "Server already absent" }
    | some s =>
      match wait_for_server_lock feed with
      | none => { outcome := .failed .pollScriptExhausted }
      | some _ =>
        { outcome := .exited true
          destroyCalled := true
          msg := some ("Server " ++ s.serverid ++ " deleted") }
  else if p.state = "present" then
    match server with
    | none =>
      if p.checkMode then
        -- create_server exits early: exit_json(changed=True, server=None)
        { outcome := .exited true }
      else
        match GlesysApi.create_server p.hostname p.datacenter p.platform
            p.template p.cpus p.memory p.disk p.password p.bandwidth
            p.description p.users p.ssh_pub_key entropy with
        | .error _ => { outcome := .failed .valueError }
        | .ok cp =>
          match wait_for_server_state feed "running" with
          | none =>
            { outcome := .failed .pollScriptExhausted
              createSubmitted := some cp }
          | some (_, feed1) =>
            -- time.sleep(1); changed = True
            GlesysRunner.presentTail p prov.createReply true feed1
              { outcome := .exited true
                createSubmitted := some cp
                settleSleeps := 1 }
    | some s =>
      let r := GlesysRunner.update_server p s false
      -- inside the source update_server: if an edit branch was taken and
      -- wait is set, wait out the lock before returning
      if GlesysRunner.updateTrigger p s && p.wait then
        match wait_for_server_lock feed with
        | none =>
          { outcome := .failed .pollScriptExhausted
            editSubmitted := r.2.1 }
        | some (_, _, _, feed1) =>
          GlesysRunner.presentTail p r.2.2 r.1 feed1
            { outcome := .exited r.1, editSubmitted := r.2.1 }
      else
        GlesysRunner.presentTail p r.2.2 r.1 feed
          { outcome := .exited r.1, editSubmitted := r.2.1 }
  else
    match server with
    | none => { outcome := .failed .attributeErrorNoneServer }
    | some _ =>
      if p.wait then
        let target := if p.state = "rebooted" then "running" else p.state
        match wait_for_server_state feed target with
        | none => { outcome := .failed .pollScriptExhausted }
        | some _ => { outcome := .failed .unboundLocalChanged }
      else { outcome := .failed .unboundLocalChanged }

/-- Fixture: a live server whose attributes match the documented module
defaults. -/
def idemServer : ServerDetails :=
  { serverid := "srv1", hostname := "host01", cpucores := 1, disksize := 20,
    memorysize := 2048, bandwidth := 100, editbandwidth := "no",
    state := "running", iplist := [⟨4, "127.0.0.1"⟩] }

/-- Fixture: a desired configuration identifying the server by id, with
the hostname parameter left unset and every sizing parameter equal to the
live `idemServer`. -/
def idemParams : ModuleParams :=
  { serverid := .str "srv1", hostname := .none, cpus := .int 1,
    memory := .int 2048, disk := .int 20, bandwidth := .int 100,
    password := "", ssh_pub_key := .none, datacenter := .str "Falkenberg",
    template := .str "Debian 9 64-bit", platform := .str "VMware",
    state := "present", users := .none, description := .none,
    wait := false, checkMode := false }

/-- Fixture: a non-drifting provider holding `idemServer`. -/
def idemProvider : Provider :=
  { found := some idemServer, createReply := idemServer,
    statusFeed := ["running"] }

/-- Fixture: `idemServer` with a different bandwidth (which the provider
reports as not editable). -/
def bwServer : ServerDetails := { idemServer with bandwidth := 50 }

/-- Fixture: a desired configuration differing from `bwServer` in cpus
(triggering an update) and in bandwidth. -/
def bwParams : ModuleParams :=
  { idemParams with cpus := .int 2, hostname := .str "host01" }

/-- Fixture: a desired configuration supplying an explicit cpus value of
zero. -/
def zeroParams : ModuleParams :=
  { idemParams with cpus := .int 0, hostname := .str "host01" }

/-- Fixture: `idemServer` with four cpu cores. -/
def zeroServer : ServerDetails := { idemServer with cpucores := 4 }

/-- Fixture: a desired configuration matching `idemServer` exactly. -/
def matchParams : ModuleParams :=
  { idemParams with hostname := .str "host01" }

/-- Fixture: the create params produced for an empty caller password with
an all-zero entropy source (the generated password is 64 copies of the
first alphabet character). -/
def emptyPwCreate : CreateParams :=
  { hostname := .str "host01", platform := .str "VMware",
    datacenter := .str "Falkenberg", templatename := .str "Debian 9 64-bit",
    disksize := .int 20, memorysize := .int 2048, cpucores := .int 1,
    bandwidth := .int 100,
    rootpassword := "AAAAAAAAAAAAAAAAAAAAAAAAAAAAAAAAAAAAAAAAAAAAAAAAAAAAAAAAAAAAAAAA",
    description := .none, users := .none, ssh_pub_key := .none }

/-! ### Helper lemmas -/

/-- Helper: a string of length zero is the empty string. -/
theorem string_eq_empty_of_length_eq_zero (s : String) (h : s.length = 0) :
    s = "" := by
  apply String.ext
  have h2 : s.data.length = 0 := h
  simpa using List.length_eq_zero.mp h2

/-- Helper: for every length of at least 8, the password generator
succeeds with a non-empty string of exactly that length whose characters
all come from the alphabet. -/
theorem generate_temp_password_spec (n : Int) (entropy : Nat → Nat)
    (h : 8 ≤ n) :
    ∃ s : String, generate_temp_password n entropy = .ok s ∧
      s.length = n.toNat ∧ s ≠ "" ∧ ∀ c ∈ s.toList, c ∈ glesysChars := by
  have hlt : ¬ n < 8 := not_lt.mpr h
  have hn : 8 ≤ n.toNat := by omega
  refine ⟨_, by rw [generate_temp_password, if_neg hlt], ?_, ?_, ?_⟩
  · show ((List.range n.toNat).map _).length = n.toNat
    simp
  · intro heq
    have h2 := congrArg String.length heq
    have h3 : ((List.range n.toNat).map fun i =>
        glesysChars.get ⟨entropy i % glesysChars.length,
          Nat.mod_lt _ (by decide)⟩).length = 0 := h2
    simp at h3
    omega
  · intro c hc
    have hc2 : c ∈ (List.range n.toNat).map fun i =>
        glesysChars.get ⟨entropy i % glesysChars.length,
          Nat.mod_lt _ (by decide)⟩ := by
      simpa using hc
    obtain ⟨i, _, rfl⟩ := List.mem_map.mp hc2
    exact List.get_mem _ _ _

/-- Helper: a create call always succeeds (the only raise point is the
generator, which is called with the fixed length 64). -/
theorem create_server_ok (hostname datacenter platform template cpus memory disk : Value)
    (password : String) (bandwidth description users ssh_pub_key : Value)
    (entropy : Nat → Nat) :
    ∃ cp, GlesysApi.create_server hostname datacenter platform template cpus
      memory disk password bandwidth description users ssh_pub_key entropy =
      .ok cp := by
  unfold GlesysApi.create_server
  by_cases hp : password.length < 1
  · obtain ⟨s, hs, -, -, -⟩ := generate_temp_password_spec 64 entropy (by decide)
    rw [if_pos hp, hs]
    exact ⟨_, rfl⟩
  · rw [if_neg hp]
    exact ⟨_, rfl⟩

/-- Helper: the source loop computing the display address returns the
first version-4 address when one exists, else the last version-6 address,
else the accumulator. -/
theorem ipLoop_eq_spec (l : List IpEntry) (acc : String) :
    ipLoop l acc =
      (match l.find? (fun i => i.version == 4) with
       | some e => e.ipaddress
       | none =>
         (match (l.filter fun i => i.version == 6).getLast? with
          | some e => e.ipaddress
          | none => acc)) := by
  induction l generalizing acc with
  | nil => rfl
  | cons i rest ih =>
    by_cases h4 : i.version = 4
    · rw [List.find?_cons_of_pos _ (by simp [h4])]
      simp [ipLoop, h4]
    · rw [List.find?_cons_of_neg _ (by simp [h4])]
      by_cases h6 : i.version = 6
      · rw [List.filter_cons_of_pos (by simp [h6])]
        have hl : ipLoop (i :: rest) acc = ipLoop rest i.ipaddress := by
          simp [ipLoop, h4, h6]
        rw [hl, ih]
        cases hf : rest.find? (fun i => i.version == 4) with
        | some e => rfl
        | none =>
          cases hfl : rest.filter (fun i => i.version == 6) with
          | nil => simp
          | cons x xs =>
            rw [List.getLast?_cons_cons]
            obtain ⟨y, hy⟩ := Option.isSome_iff_exists.mp
              (List.getLast?_isSome.mpr (List.cons_ne_nil x xs))
            rw [hy]
      · rw [List.filter_cons_of_neg (by simp [h6])]
        have hl : ipLoop (i :: rest) acc = ipLoop rest acc := by
          simp [ipLoop, h4, h6]
        rw [hl, ih]

/-- Helper: every entry of the field-set that `GlesysApi.update_server`
posts is truthy, differs from the server properties, and comes from the
caller-provided params. -/
theorem api_update_server_sound (server : ServerDetails)
    (params : List (String × Value)) (fs : List (String × Value))
    (h : (GlesysApi.update_server server params).2 = some fs) :
    ∀ kv ∈ fs, kv.2.truthy = true ∧ kv.2 ≠ server.to_json kv.1 ∧
      kv ∈ params := by
  unfold GlesysApi.update_server at h
  dsimp only at h
  split at h
  · simp at h
  · simp only [Option.some.injEq] at h
    subst h
    intro kv hkv
    have h1 := List.mem_filter.mp hkv
    have h2 := List.mem_filter.mp h1.1
    exact ⟨h2.2, bne_iff_ne.mp h1.2, h2.1⟩

/-- Helper: the update trigger does not read the check-mode flag. -/
theorem updateTrigger_cm (p : ModuleParams) (b : Bool) :
    GlesysRunner.updateTrigger { p with checkMode := b } =
      GlesysRunner.updateTrigger p := rfl

/-- Helper: the update core does not read the check-mode flag. -/
theorem update_server_cm (p : ModuleParams) (b : Bool) :
    GlesysRunner.update_server { p with checkMode := b } =
      GlesysRunner.update_server p := rfl

/-- Helper: the shared tail does not read the check-mode flag. -/
theorem presentTail_cm (p : ModuleParams) (b : Bool) :
    GlesysRunner.presentTail { p with checkMode := b } =
      GlesysRunner.presentTail p := rfl

/-- Helper: the shared tail never changes the recorded edit trace. -/
theorem presentTail_editSubmitted (p : ModuleParams) (cur : ServerDetails)
    (changed : Bool) (feed : List String) (base : RunResult) :
    (GlesysRunner.presentTail p cur changed feed base).editSubmitted =
      base.editSubmitted := by
  unfold GlesysRunner.presentTail
  split
  · rfl
  · dsimp only
    split
    · split <;> rfl
    · rfl

/-- Helper: with wait disabled and a lock-wait that terminates, the shared
tail exits normally reporting the accumulated changed flag, the display
address and the final server. -/
theorem presentTail_no_wait (p : ModuleParams) (cur : ServerDetails)
    (changed : Bool) (feed : List String) (base : RunResult)
    (q : Nat × Nat × String × List String)
    (hq : wait_for_server_lock feed = some q) (hw : p.wait = false) :
    GlesysRunner.presentTail p cur changed feed base =
      { base with
        outcome := .exited changed
        ipaddress := some (compute_ipaddress cur.iplist)
        serverFinal := some cur } := by
  obtain ⟨a, b, c, d⟩ := q
  unfold GlesysRunner.presentTail
  rw [hq]
  simp [hw]

/-! ### Claims -/

/-- Claim C1 (code bug, evaluated): with the hostname parameter unset and
every other compared parameter equal to the live server, an invocation
posts no create, no edit and no destroy — so a non-drifting provider is
left exactly as found — yet it reports changed=true; the second,
identical invocation (same desired configuration, same provider state) is
the very same computation and again reports changed=true, violating the
specified idempotence.  The cause: the update branch triggers on the
Python-unequal comparison hostname-value vs None and then sets
changed=True unconditionally even though the filtered field-set is empty
and `GlesysApi.update_server` returned (False, None). -/
theorem c1_idempotence_bug_eval :
    GlesysRunner.run idemParams idemProvider (fun _ => 0) =
      { outcome := .exited true
        serverFinal := some idemServer
        ipaddress := some "127.0.0.1"
        editSubmitted := none } ∧
    (GlesysRunner.run idemParams idemProvider (fun _ => 0)).outcome =
      .exited true := by decide

/-- Claim C2 (counterexample): with bandwidth editing unsupported
(editbandwidth = "no") and a cpus difference triggering the update, the
differing bandwidth IS included in the submitted field-set, contradicting
the claim that it is never included. -/
theorem c2_bandwidth_submitted_counterexample :
    (GlesysRunner.update_server bwParams bwServer false).2.1 =
      some [("cpucores", Value.int 2), ("bandwidth", Value.int 100)] ∧
    bwServer.editbandwidth ≠ "yes" ∧
    Value.int bwServer.bandwidth ≠ bwParams.bandwidth := by
  decide

/-- Claim C2 (amended): when the snapshot reports bandwidth editing
unsupported, a bandwidth-only difference yields decision no-op (no edit,
changed stays false); but when some other compared field differs, the
update fires and a truthy differing bandwidth is submitted despite the
unsupported flag (the gate exists only in the trigger condition). -/
theorem c2_bandwidth_gating_amended (p : ModuleParams) (sd : ServerDetails)
    (hbw : sd.editbandwidth ≠ "yes")
    (hc : p.cpus = .int sd.cpucores) (hd : p.disk = .int sd.disksize)
    (hm : p.memory = .int sd.memorysize) (hh : p.hostname = .str sd.hostname) :
    GlesysRunner.update_server p sd false = (false, none, sd) := by
  have ht : GlesysRunner.updateTrigger p sd = false := by
    simp [GlesysRunner.updateTrigger, hc, hd, hm, hh, hbw]
  simp [GlesysRunner.update_server, ht]

/-- Claim C2 (witness): the amended theorem applied to a server whose
compared fields all match while bandwidth editing is unsupported. -/
theorem c2_bandwidth_gating_witness :
    GlesysRunner.update_server matchParams idemServer false =
      (false, none, idemServer) :=
  c2_bandwidth_gating_amended matchParams idemServer (by decide) (by decide)
    (by decide) (by decide) (by decide)

/-- Claim C3 (counterexample): for the address list with two version-6
entries ::1 then ::2 and no version-4 entry, the derived ipaddress is the
last IPv6 address ::2, not the first IPv6 address ::1 as the claim
states. -/
theorem c3_last_v6_counterexample :
    compute_ipaddress [⟨6, "::1"⟩, ⟨6, "::2"⟩] = "::2" ∧ "::2" ≠ "::1" := by
  decide

/-- Claim C3 (amended): the derived ipaddress is the first IPv4 address in
the list if any IPv4 address is present, and otherwise the LAST IPv6
address (empty when neither exists); for the list [(v6,::1), (v4,1.2.3.4)]
this still gives 1.2.3.4. -/
theorem c3_address_selection_amended (l : List IpEntry) :
    compute_ipaddress l =
      (match l.find? (fun i => i.version == 4) with
       | some e => e.ipaddress
       | none =>
         (match (l.filter fun i => i.version == 6).getLast? with
          | some e => e.ipaddress
          | none => "")) :=
  ipLoop_eq_spec l ""

/-- Claim C4 (counterexample): for target state running with no existing
resource, no create is issued at all — the run dies dereferencing the
missing server — contradicting the claim that every state in
present/running/stopped/rebooted leads to a create. -/
theorem c4_nonpresent_no_create_counterexample :
    GlesysRunner.run { idemParams with state := "running" }
      { found := none, createReply := idemServer, statusFeed := [] }
      (fun _ => 0) =
      { outcome := .failed .attributeErrorNoneServer } := by decide

/-- Claim C4 (amended): only for target state present does an absent
lookup lead to a create: the create is submitted, the run waits for the
created resource to reach state running, settles exactly one fixed
1-time-unit sleep, and reports changed=true; for running, stopped and
rebooted with an absent resource no create happens (see the
counterexample). -/
theorem c4_create_on_present_amended (p : ModuleParams) (prov : Provider)
    (entropy : Nat → Nat)
    (hstate : p.state = "present") (hcm : p.checkMode = false)
    (hfound : prov.found = none) (hwait : p.wait = false)
    (n : Nat) (feed1 : List String)
    (hrun : wait_for_server_state prov.statusFeed "running" = some (n, feed1))
    (q : Nat × Nat × String × List String)
    (hlock : wait_for_server_lock feed1 = some q) :
    (GlesysRunner.run p prov entropy).createSubmitted.isSome = true ∧
    (GlesysRunner.run p prov entropy).outcome = .exited true ∧
    (GlesysRunner.run p prov entropy).settleSleeps = 1 := by
  obtain ⟨cp, hcp⟩ := create_server_ok p.hostname p.datacenter p.platform
    p.template p.cpus p.memory p.disk p.password p.bandwidth p.description
    p.users p.ssh_pub_key entropy
  have hr : GlesysRunner.run p prov entropy =
      GlesysRunner.presentTail p prov.createReply true feed1
        { outcome := .exited true, createSubmitted := some cp,
          settleSleeps := 1 } := by
    unfold GlesysRunner.run
    dsimp only
    rw [hstate, hfound, hcm, hcp, hrun]
    simp
  rw [hr, presentTail_no_wait p prov.createReply true feed1 _ q hlock hwait]
  exact ⟨rfl, rfl, rfl⟩

/-- Claim C4 (witness): the amended theorem applied to a concrete absent
lookup in state present with a status feed that reports running at once. -/
theorem c4_create_on_present_witness :
    (GlesysRunner.run idemParams
      { found := none, createReply := idemServer,
        statusFeed := ["running", "running"] } (fun _ => 0)).createSubmitted.isSome
      = true ∧
    (GlesysRunner.run idemParams
      { found := none, createReply := idemServer,
        statusFeed := ["running", "running"] } (fun _ => 0)).outcome =
      .exited true ∧
    (GlesysRunner.run idemParams
      { found := none, createReply := idemServer,
        statusFeed := ["running", "running"] } (fun _ => 0)).settleSleeps = 1 :=
  c4_create_on_present_amended idemParams
    { found := none, createReply := idemServer,
      statusFeed := ["running", "running"] } (fun _ => 0) rfl rfl rfl rfl
    1 ["running"] (by decide) (1, 0, "running", []) (by decide)

/-- Claim C5 (counterexample): an explicitly supplied zero value is NOT
treated as set: with desired cpus = 0 against a server with 4 cores (all
other fields matching), the update branch triggers yet the submitted
field-set is empty and no edit is posted, contradicting the claim that
set-to-zero is distinct from absent (the run nevertheless reports
changed=true). -/
theorem c5_zero_treated_unset_counterexample :
    GlesysRunner.update_server zeroParams zeroServer false =
      (true, none, zeroServer) := by decide

/-- Claim C5 (amended): every field of a submitted update field-set is a
caller-provided field whose desired value is truthy (set to a non-None,
non-zero, non-empty value) and differs from the snapshot value; unset
fields never appear, but an explicitly supplied zero/empty value is
treated exactly like an unset one and never appears either. -/
theorem c5_fieldset_amended (p : ModuleParams) (sd : ServerDetails)
    (fs : List (String × Value))
    (h : (GlesysRunner.update_server p sd false).2.1 = some fs) :
    ∀ kv ∈ fs, kv.2.truthy = true ∧ kv.2 ≠ sd.to_json kv.1 ∧
      kv ∈ GlesysRunner.updateFields p := by
  unfold GlesysRunner.update_server at h
  split at h
  · revert h
    cases hapi : (GlesysApi.update_server sd (GlesysRunner.updateFields p)).2 with
    | none => intro h; simp at h
    | some fs2 =>
      intro h
      simp only [Option.some.injEq] at h
      subst h
      exact api_update_server_sound _ _ _ hapi
  · simp at h

/-- Claim C5 (witness): the amended theorem applied to the bandwidth
fixture, whose submitted field-set is [(cpucores, 2), (bandwidth, 100)]. -/
theorem c5_fieldset_witness :
    (GlesysRunner.update_server bwParams bwServer false).2.1 =
      some [("cpucores", Value.int 2), ("bandwidth", Value.int 100)] ∧
    (Value.int 2).truthy = true ∧
    Value.int 2 ≠ bwServer.to_json "cpucores" := by
  refine ⟨by decide, ?_⟩
  have h := c5_fieldset_amended bwParams bwServer
    [("cpucores", Value.int 2), ("bandwidth", Value.int 100)] (by decide)
    ("cpucores", Value.int 2) (by decide)
  exact ⟨h.1, h.2.1⟩

/-- Claim C6 (confirmed): a create call never submits an empty root
password: a non-empty caller password is submitted exactly as given (so
the generator is never consulted for it), and an empty caller password is
replaced by a generated password of length 64 (hence at least 8) drawn
only from the defined alphabet. -/
theorem c6_create_password_invariant
    (hostname datacenter platform template cpus memory disk : Value)
    (password : String) (bandwidth description users ssh_pub_key : Value)
    (entropy : Nat → Nat) (cp : CreateParams)
    (h : GlesysApi.create_server hostname datacenter platform template cpus
      memory disk password bandwidth description users ssh_pub_key entropy =
      .ok cp) :
    cp.rootpassword ≠ "" ∧
    (password ≠ "" → cp.rootpassword = password) ∧
    (password = "" → 8 ≤ cp.rootpassword.length ∧
      ∀ c ∈ cp.rootpassword.toList, c ∈ glesysChars) := by
  unfold GlesysApi.create_server at h
  by_cases hp : password.length < 1
  · have hpw : password = "" :=
      string_eq_empty_of_length_eq_zero _ (Nat.lt_one_iff.mp hp)
    obtain ⟨s, hs, hslen, hsne, hschars⟩ :=
      generate_temp_password_spec 64 entropy (by decide)
    rw [if_pos hp, hs] at h
    dsimp only at h
    injection h with h
    subst h
    refine ⟨hsne, fun hne => absurd hpw hne, fun _ => ⟨?_, hschars⟩⟩
    show 8 ≤ s.length
    rw [hslen]
    decide
  · rw [if_neg hp] at h
    dsimp only at h
    injection h with h
    subst h
    have hne : password ≠ "" := by
      intro heq
      rw [heq] at hp
      exact hp (by decide)
    exact ⟨hne, fun _ => rfl, fun heq => absurd heq hne⟩

/-- Claim C6 (witness): the invariant theorem applied to a concrete create
call with an empty caller password and an all-zero entropy source. -/
theorem c6_create_password_witness :
    GlesysApi.create_server (.str "host01") (.str "Falkenberg")
      (.str "VMware") (.str "Debian 9 64-bit") (.int 1) (.int 2048)
      (.int 20) "" (.int 100) .none .none .none (fun _ => 0) =
      .ok emptyPwCreate ∧
    emptyPwCreate.rootpassword ≠ "" ∧
    8 ≤ emptyPwCreate.rootpassword.length := by
  have heq : GlesysApi.create_server (.str "host01") (.str "Falkenberg")
      (.str "VMware") (.str "Debian 9 64-bit") (.int 1) (.int 2048)
      (.int 20) "" (.int 100) .none .none .none (fun _ => 0) =
      .ok emptyPwCreate := by rfl
  have h := c6_create_password_invariant (.str "host01") (.str "Falkenberg")
    (.str "VMware") (.str "Debian 9 64-bit") (.int 1) (.int 2048)
    (.int 20) "" (.int 100) .none .none .none (fun _ => 0) emptyPwCreate heq
  exact ⟨heq, h.1, (h.2.2 rfl).1⟩

/-- Claim C7 (counterexample): the password alphabet of the source has 32
characters, not 33 as the claim states (26 uppercase letters minus I and
O, plus 10 digits minus 0 and 1). -/
theorem c7_alphabet_size_counterexample :
    glesysChars.length = 32 ∧ ¬ glesysChars.length = 33 := by decide

/-- Claim C7 (amended): generate_temp_password raises ValueError for every
requested integer length below 8, before any network interaction (it
performs none); for every integer length of at least 8 it returns a
string of exactly that length whose characters all belong to the fixed
32-character alphabet of uppercase letters and digits that excludes the
visually ambiguous I, O, 0 and 1. -/
theorem c7_generate_password_amended (n : Int) (entropy : Nat → Nat) :
    (n < 8 → generate_temp_password n entropy =
      .error "temp password must have positive length") ∧
    (8 ≤ n → ∃ s : String, generate_temp_password n entropy = .ok s ∧
      s.length = n.toNat ∧ ∀ c ∈ s.toList, c ∈ glesysChars) ∧
    (glesysChars.length = 32 ∧ 'I' ∉ glesysChars ∧ 'O' ∉ glesysChars ∧
      '0' ∉ glesysChars ∧ '1' ∉ glesysChars) := by
  refine ⟨?_, ?_, by decide⟩
  · intro h
    simp [generate_temp_password, h]
  · intro h
    obtain ⟨s, hs, hlen, -, hchars⟩ := generate_temp_password_spec n entropy h
    exact ⟨s, hs, hlen, hchars⟩

/-- Claim C7 (witness): the amended theorem evaluated at length 5 (error)
and, directly, at length 12 with an all-zero entropy source. -/
theorem c7_generate_password_witness :
    generate_temp_password 5 (fun _ => 0) =
      .error "temp password must have positive length" ∧
    generate_temp_password 12 (fun _ => 0) = .ok "AAAAAAAAAAAA" :=
  ⟨(c7_generate_password_amended 5 (fun _ => 0)).1 (by decide), by rfl⟩

/-- Claim C8 (counterexample): an update invocation whose field-set is
empty after the filtering (here a single unset field) returns the normal
value (False, None) issuing no remote call, instead of failing loudly as
the claim states. -/
theorem c8_empty_fieldset_counterexample :
    GlesysApi.update_server idemServer [("cpucores", Value.none)] =
      (false, none) := by decide

/-- Claim C8 (amended): for every update invocation whose field-set is
empty after removing unset/falsy and unchanged fields, the update
operation returns (False, None) normally, without any remote call and
without raising any error. -/
theorem c8_empty_fieldset_amended (server : ServerDetails)
    (params : List (String × Value))
    (h : ∀ kv ∈ params, kv.2.truthy = false ∨ kv.2 = server.to_json kv.1) :
    GlesysApi.update_server server params = (false, none) := by
  unfold GlesysApi.update_server
  have h2 : ((params.filter fun kv => kv.2.truthy).filter
      fun kv => kv.2 != server.to_json kv.1) = [] := by
    rw [List.filter_eq_nil_iff]
    intro kv hkv
    have h1 := List.mem_filter.mp hkv
    rcases h kv h1.1 with ht | heq
    · rw [h1.2] at ht
      exact absurd ht (by decide)
    · simp [heq]
  simp [h2]

/-- Claim C8 (witness): the amended theorem applied to a field-set holding
one unchanged truthy field and one unset field. -/
theorem c8_empty_fieldset_witness :
    GlesysApi.update_server idemServer
      [("cpucores", Value.int 1), ("hostname", Value.none)] = (false, none) :=
  c8_empty_fieldset_amended _ _ (by decide)

/-- Claim C9 (confirmed): against the status sequence [locked, locked,
running], the lock-wait loop issues exactly 3 polls with exactly 2
intervening sleeps of the fixed 1-time-unit interval (one sleep between
each pair of consecutive polls) and terminates having observed the state
running. -/
theorem c9_lock_wait_three_polls :
    wait_for_server_lock ["locked", "locked", "running"] =
      some (3, 2, "running", []) := rfl

/-- Claim C10 (confirmed): check mode short-circuits only the create path.
First conjunct: whenever the create path is not reached (the state is not
present with an absent resource), the whole run is identical with and
without check mode.  Second conjunct: in check mode, state absent with an
existing resource still issues the real destroy and reports changed=true.
Third conjunct: in check mode, the present-path update records exactly
the field-set that the update logic posts to the provider. -/
theorem c10_check_mode_scope (p : ModuleParams) (prov : Provider)
    (entropy : Nat → Nat) :
    (¬(p.state = "present" ∧ prov.found = none) →
      GlesysRunner.run { p with checkMode := true } prov entropy =
        GlesysRunner.run { p with checkMode := false } prov entropy) ∧
    (∀ s : ServerDetails, p.state = "absent" → prov.found = some s →
      (wait_for_server_lock prov.statusFeed).isSome = true →
      (GlesysRunner.run { p with checkMode := true } prov entropy).destroyCalled
        = true ∧
      (GlesysRunner.run { p with checkMode := true } prov entropy).outcome =
        .exited true) ∧
    (∀ s : ServerDetails, p.state = "present" → prov.found = some s →
      (GlesysRunner.run { p with checkMode := true } prov entropy).editSubmitted
        = (GlesysRunner.update_server p s false).2.1) := by
  refine ⟨?_, ?_, ?_⟩
  · intro h
    unfold GlesysRunner.run
    dsimp only
    simp only [updateTrigger_cm, update_server_cm, presentTail_cm]
    by_cases h1 : p.state = "absent"
    · rw [h1]
      simp
    · by_cases h2 : p.state = "present"
      · rcases hf : prov.found with _ | s
        · exact absurd ⟨h2, hf⟩ h
        · rw [h2]
      · simp [h1, h2]
  · intro s h1 h2 hlock
    obtain ⟨q, hq⟩ := Option.isSome_iff_exists.mp hlock
    obtain ⟨a, b, c, d⟩ := q
    unfold GlesysRunner.run
    dsimp only
    rw [h1, h2, hq]
    exact ⟨rfl, rfl⟩
  · intro s h1 h2
    unfold GlesysRunner.run
    dsimp only
    simp only [updateTrigger_cm, update_server_cm, presentTail_cm]
    rw [h1, h2]
    by_cases hw : (GlesysRunner.updateTrigger p s && p.wait) = true
    · cases hq : wait_for_server_lock prov.statusFeed with
      | none => simp [hw, hq]
      | some q =>
        obtain ⟨a, b, c, d⟩ := q
        simp [hw, hq, presentTail_editSubmitted]
    · simp [hw, presentTail_editSubmitted]

/-- Claim C10 (witness): the scope theorem applied to a concrete absent
invocation under check mode against an existing server. -/
theorem c10_check_mode_witness :
    (GlesysRunner.run { idemParams with state := "absent", checkMode := true }
      idemProvider (fun _ => 0)).destroyCalled = true ∧
    (GlesysRunner.run { idemParams with state := "absent", checkMode := true }
      idemProvider (fun _ => 0)).outcome = .exited true :=
  (c10_check_mode_scope { idemParams with state := "absent" } idemProvider
    (fun _ => 0)).2.1 idemServer rfl rfl (by decide)

end Glesys
